import Mathlib

/-!
# Verification of the Intercom provider lifecycle logic

A shallow embedding of the widget lifecycle controller of
`src/provider.tsx` and the polling primitive of `useInterval.ts`
(react-use-intercom), together with proofs about its boot/shutdown state
machine, its readiness guard, its settings merging, and its polling
behaviour.

Modelling conventions:
* `window.Intercom` is modelled as a `Bool` (`wIntercom`): present-and-callable
  or absent.  `window.intercomSettings` is an `Option Settings`.
* Settings objects are association lists `List (String × String)`; the
  JavaScript spread `\x7b...a, ...b\x7d` is `smerge a b = a ++ b` with lookup
  scanning from the right, so later keys win exactly as in JS.
* Every `IntercomAPI(cmd, args)` call site appends `(cmd, isBooted-at-call-time)`
  to a trace.  Modelled from the spec: `IntercomAPI` (src/api.ts, not under
  src/) forwards a named command to the global vendor entry point; here the
  forwarding itself is the trace append, and the vendor's return value for
  `getVisitorId` is read from the window model.
* Modelled from the spec: `initialize` (src/initialize.ts, not under src/)
  asynchronously injects the vendor script; here it is counted in
  `initializeCalls` and does not synchronously set `wIntercom`.
* Modelled from the spec: `logger.log('warn', msg)` appends `msg` to a
  warning list.  Message texts keep the operative words of the source.
* The prop mapper `mapIntercomPropsToRawIntercomProps` (src/mappers.ts, not
  under src/) is a pure translation; operations below take its output (the
  raw settings) directly as an argument, universally quantified in theorems.
-/

namespace ReactUseIntercom

/-- Flat vendor settings object: an association list where, as with the JS
object spread, a later binding of a key shadows an earlier one. -/
abbrev Settings := List (String × String)

/-- Lookup with JS object semantics: the last binding of a key wins. -/
def slookup (s : Settings) (k : String) : Option String :=
  (s.reverse.find? (fun p => p.1 = k)).map (fun p => p.2)

/-- JS object spread merge: keys of `b` win over keys of `a`. -/
def smerge (a b : Settings) : Settings := a ++ b

/-- The provider's configuration props, fixed for a mount
(`IntercomProviderProps`).  Callback props are modelled by whether they were
supplied. -/
structure Config where
  appId : String
  autoBoot : Bool
  hasOnHide : Bool
  hasOnShow : Bool
  hasOnUnreadCountChange : Bool
  hasOnInitialize : Bool
  hasOnBoot : Bool
  shouldInitialize : Bool
  apiBase : Option String
  externalIntercom : Bool
  externalIntercomFallback : Bool
  externalIntercomFallbackDelay : Nat
  isSSR : Bool
deriving DecidableEq, Repr

/-- The window-scoped globals the provider reads and writes:
`window.Intercom` (present iff `wIntercom`), `window.intercomSettings`, and
the visitor id the vendor would return from a `getVisitorId` command. -/
structure WindowState where
  wIntercom : Bool
  intercomSettings : Option Settings
  visitorId : String
deriving DecidableEq, Repr

/-- The named commands forwarded through `IntercomAPI` by `provider.tsx`. -/
inductive Cmd where
  | bootCmd (settings : Settings)
  | shutdownCmd
  | updateCmd (props : Settings)
  | hideCmd
  | showCmd
  | showMessagesCmd
  | showNewMessageCmd (message : Option String)
  | getVisitorIdCmd
  | startTourCmd (tourId : Int)
  | trackEventCmd (event : String) (metaData : Option Settings)
  | onHideCmd
  | onShowCmd
  | onUnreadCountChangeCmd
deriving DecidableEq, Repr

/-- One mounted provider's observable state: the `isBooted` ref, the `ping`
state, the `start` timestamp ref, the window globals, the trace of
`IntercomAPI` calls (each paired with the value of `isBooted` at the moment
of the call), the warnings logged, and counters for `initialize`,
`onInitialize` and `onBoot` invocations. -/
structure PState where
  isBooted : Bool
  ping : Bool
  start : Nat
  window : WindowState
  dispatched : List (Cmd × Bool)
  warnings : List String
  initializeCalls : Nat
  onInitializeCalls : Nat
  onBootCalls : Nat
deriving DecidableEq, Repr

/-- An `IntercomAPI(cmd, ...)` call: record the command together with the
value of `isBooted` at the time of the call. -/
def dispatch (c : Cmd) (s : PState) : PState :=
  { s with dispatched := s.dispatched ++ [(c, s.isBooted)] }

/-- The warning `boot` logs when the vendor handle is absent and
`shouldInitialize` is false. -/
def bootWarning : String :=
  "Intercom instance is not initialized because shouldInitialize is set to false in IntercomProvider, or because externalIntercom is set to true in IntercomProvider, and the external Intercom instance has not been initialized yet."

/-- The warning `ensureIntercom` logs when the vendor handle is absent and
`shouldInitialize` is false. -/
def notInitializedWarning : String :=
  "Intercom instance is not initialized because shouldInitialize is set to false in IntercomProvider"

/-- The warning `ensureIntercom` logs, naming the attempted operation, when
Intercom has not booted yet. -/
def notBootedWarning (functionName : String) : String :=
  functionName ++ " was called but Intercom has not booted yet. Please call boot before calling " ++ functionName ++ " or set autoBoot to true in the IntercomProvider."

/-- `getIntercomSettings(metaData?)`: the common settings are
`\x7b app_id, ...(apiBase && \x7b api_base \x7d), ...metaData \x7d`; when
`externalIntercom` is set they are spread over the existing
`window.intercomSettings`, otherwise they stand alone.  The `apiBase &&`
truthiness test makes an empty string behave like an absent one. -/
def commonSettings (cfg : Config) (metaData : Option Settings) : Settings :=
  [("app_id", cfg.appId)]
    ++ (match cfg.apiBase with
        | some b => if b = "" then [] else [("api_base", b)]
        | none => [])
    ++ metaData.getD []

/-- The settings `boot` computes: see `commonSettings`. -/
def getIntercomSettings (cfg : Config) (w : WindowState) (metaData : Option Settings) : Settings :=
  if cfg.externalIntercom then
    smerge (w.intercomSettings.getD []) (commonSettings cfg metaData)
  else
    commonSettings cfg metaData

/-- `boot(props?)`.  `props` is the already-mapped raw settings (the prop
mapper is outside this model).  Warn and stop when the vendor handle is
absent and `shouldInitialize` is false; silently stop when already booted;
otherwise store the computed settings in `window.intercomSettings`, forward
a `boot` command with them, set `isBooted`, and invoke `onBoot` when
supplied — in that source order. -/
def boot (cfg : Config) (props : Option Settings) (s : PState) : PState :=
  if !s.window.wIntercom && !cfg.shouldInitialize then
    { s with warnings := s.warnings ++ [bootWarning] }
  else if s.isBooted then s
  else
    let intercomSettings := getIntercomSettings cfg s.window props
    let s := { s with window := { s.window with intercomSettings := some intercomSettings } }
    let s := dispatch (Cmd.bootCmd intercomSettings) s
    let s := { s with isBooted := true }
    if cfg.hasOnBoot then { s with onBootCalls := s.onBootCalls + 1 } else s

/-- `initializeAndAttachListeners()`: inject the vendor bootstrap (counted),
invoke `onInitialize` when supplied, register each supplied listener through
`IntercomAPI`, and auto-boot when configured. -/
def initializeAndAttachListeners (cfg : Config) (s : PState) : PState :=
  let s := { s with initializeCalls := s.initializeCalls + 1 }
  let s := if cfg.hasOnInitialize then { s with onInitializeCalls := s.onInitializeCalls + 1 } else s
  let s := if cfg.hasOnHide then dispatch Cmd.onHideCmd s else s
  let s := if cfg.hasOnShow then dispatch Cmd.onShowCmd s else s
  let s := if cfg.hasOnUnreadCountChange then dispatch Cmd.onUnreadCountChangeCmd s else s
  if cfg.autoBoot then boot cfg none s else s

/-- `shouldPing = ping && externalIntercom`. -/
def shouldPing (cfg : Config) (s : PState) : Bool :=
  s.ping && cfg.externalIntercom

/-- The delay the provider passes to `useInterval`, exactly as written in the
source: `shouldPing ? null : 1000`. -/
def pingIntervalDelay (cfg : Config) (s : PState) : Option Nat :=
  if shouldPing cfg s then none else some 1000

/-- The body of the callback the provider hands to `useInterval`, at wall
time `now`: when client-side, allowed to initialize, and expecting an
external instance — initialize and leave the ping state if the vendor entry
point is a function, or, failing that, if the fallback is enabled and more
than the fallback delay has elapsed since `start`. -/
def pingTickBody (cfg : Config) (now : Nat) (s : PState) : PState :=
  if !cfg.isSSR && cfg.shouldInitialize && cfg.externalIntercom then
    if s.window.wIntercom then
      let s := initializeAndAttachListeners cfg s
      { s with ping := false }
    else
      if cfg.externalIntercomFallback && decide (now - s.start > cfg.externalIntercomFallbackDelay) then
        let s := initializeAndAttachListeners cfg s
        { s with ping := false }
      else s
  else s

/-- One scheduler step for the interval: the callback fires only when
`useInterval` was armed, i.e. when the delay it received is not the `null`
sentinel. -/
def pingTick (cfg : Config) (now : Nat) (s : PState) : PState :=
  if (pingIntervalDelay cfg s).isSome then pingTickBody cfg now s else s

/-- The provider state immediately after construction: not booted,
`ping = true`, `start = Date.now()`, an empty trace. -/
def mountState (now : Nat) (w : WindowState) : PState :=
  { isBooted := false
    ping := true
    start := now
    window := w
    dispatched := []
    warnings := []
    initializeCalls := 0
    onInitializeCalls := 0
    onBootCalls := 0 }

/-- Mounting the provider: construct the state, then run the synchronous
initialization of the render body — performed only client-side, when allowed
to initialize, not expecting an external instance, and with no vendor handle
present yet. -/
def mount (cfg : Config) (now : Nat) (w : WindowState) : PState :=
  let s := mountState now w
  if !cfg.isSSR && cfg.shouldInitialize && !cfg.externalIntercom && !w.wIntercom then
    initializeAndAttachListeners cfg s
  else s

/-- `ensureIntercom(functionName, callback)`: warn and return nothing when
the vendor handle is absent and `shouldInitialize` is false; warn (naming
the operation) and return nothing when not booted; otherwise run the
callback and return its result. -/
def ensureIntercom (cfg : Config) (functionName : String)
    (callback : PState → PState × Option String) (s : PState) : PState × Option String :=
  if !s.window.wIntercom && !cfg.shouldInitialize then
    ({ s with warnings := s.warnings ++ [notInitializedWarning] }, none)
  else if !s.isBooted then
    ({ s with warnings := s.warnings ++ [notBootedWarning functionName] }, none)
  else callback s

/-- `refresh()`: through the guard, forward an `update` command carrying only
a freshly computed `last_requested_at` timestamp. -/
def refresh (cfg : Config) (now : Nat) (s : PState) : PState :=
  (ensureIntercom cfg "update"
    (fun s => (dispatch (Cmd.updateCmd [("last_requested_at", toString now)]) s, none)) s).1

/-- `update(props?)`: through the guard — with no props, delegate to
`refresh`; with props (already mapped to raw settings), spread them over
`window.intercomSettings` and forward an `update` command carrying only the
raw props. -/
def update (cfg : Config) (now : Nat) (props : Option Settings) (s : PState) : PState :=
  (ensureIntercom cfg "update"
    (fun s =>
      match props with
      | none => (refresh cfg now s, none)
      | some rawProps =>
        let s := { s with window := { s.window with
          intercomSettings := some (smerge (s.window.intercomSettings.getD []) rawProps) } }
        (dispatch (Cmd.updateCmd rawProps) s, none)) s).1

/-- `hide()`: through the guard, forward a `hide` command. -/
def hide (cfg : Config) (s : PState) : PState :=
  (ensureIntercom cfg "hide" (fun s => (dispatch Cmd.hideCmd s, none)) s).1

/-- `show()` (named `showFn` here because `show` is a Lean keyword): through
the guard, forward a `show` command. -/
def showFn (cfg : Config) (s : PState) : PState :=
  (ensureIntercom cfg "show" (fun s => (dispatch Cmd.showCmd s, none)) s).1

/-- `showMessages()`: through the guard, forward a `showMessages` command. -/
def showMessages (cfg : Config) (s : PState) : PState :=
  (ensureIntercom cfg "showMessages" (fun s => (dispatch Cmd.showMessagesCmd s, none)) s).1

/-- `showNewMessages(message?)`: through the guard (under the name
`showNewMessage`), forward a `showNewMessage` command, with the message only
when one was given. -/
def showNewMessages (cfg : Config) (message : Option String) (s : PState) : PState :=
  (ensureIntercom cfg "showNewMessage"
    (fun s =>
      match message with
      | none => (dispatch (Cmd.showNewMessageCmd none) s, none)
      | some m => (dispatch (Cmd.showNewMessageCmd (some m)) s, none)) s).1

/-- `getVisitorId()`: through the guard, forward a `getVisitorId` command
and return the vendor's visitor id. -/
def getVisitorId (cfg : Config) (s : PState) : PState × Option String :=
  ensureIntercom cfg "getVisitorId"
    (fun s => (dispatch Cmd.getVisitorIdCmd s, some s.window.visitorId)) s

/-- `startTour(tourId)`: through the guard, forward a `startTour` command. -/
def startTour (cfg : Config) (tourId : Int) (s : PState) : PState :=
  (ensureIntercom cfg "startTour" (fun s => (dispatch (Cmd.startTourCmd tourId) s, none)) s).1

/-- `trackEvent(event, metaData?)`: through the guard, forward a
`trackEvent` command, with the metadata only when some was given. -/
def trackEvent (cfg : Config) (event : String) (metaData : Option Settings) (s : PState) : PState :=
  (ensureIntercom cfg "trackEvent"
    (fun s =>
      match metaData with
      | none => (dispatch (Cmd.trackEventCmd event none) s, none)
      | some md => (dispatch (Cmd.trackEventCmd event (some md)) s, none)) s).1

/-- `shutdown()`: do nothing when not booted; otherwise forward a `shutdown`
command and clear `isBooted`. -/
def shutdown (s : PState) : PState :=
  if !s.isBooted then s
  else
    let s := dispatch Cmd.shutdownCmd s
    { s with isBooted := false }

/-- `hardShutdown()`: do nothing when not booted; otherwise forward a
`shutdown` command, delete `window.Intercom` and `window.intercomSettings`,
and clear `isBooted`. -/
def hardShutdown (s : PState) : PState :=
  if !s.isBooted then s
  else
    let s := dispatch Cmd.shutdownCmd s
    let s := { s with window := { s.window with wIntercom := false, intercomSettings := none } }
    { s with isBooted := false }

/-- The eight outward-facing guarded commands of the provider surface, with
their arguments. -/
inductive GuardedCall where
  | updateCall (now : Nat) (props : Option Settings)
  | hideCall
  | showCall
  | showMessagesCall
  | showNewMessagesCall (message : Option String)
  | getVisitorIdCall
  | startTourCall (tourId : Int)
  | trackEventCall (event : String) (metaData : Option Settings)
deriving DecidableEq, Repr

/-- The `functionName` each guarded command passes to `ensureIntercom`
(`showNewMessages` passes the singular `showNewMessage`). -/
def guardedName : GuardedCall → String
  | GuardedCall.updateCall _ _ => "update"
  | GuardedCall.hideCall => "hide"
  | GuardedCall.showCall => "show"
  | GuardedCall.showMessagesCall => "showMessages"
  | GuardedCall.showNewMessagesCall _ => "showNewMessage"
  | GuardedCall.getVisitorIdCall => "getVisitorId"
  | GuardedCall.startTourCall _ => "startTour"
  | GuardedCall.trackEventCall _ _ => "trackEvent"

/-- Run a guarded command through the provider's functions, uniformly
returning the new state and the command's returned value (only
`getVisitorId` returns one). -/
def runGuarded (cfg : Config) : GuardedCall → PState → PState × Option String
  | GuardedCall.updateCall now props => fun s => (update cfg now props s, none)
  | GuardedCall.hideCall => fun s => (hide cfg s, none)
  | GuardedCall.showCall => fun s => (showFn cfg s, none)
  | GuardedCall.showMessagesCall => fun s => (showMessages cfg s, none)
  | GuardedCall.showNewMessagesCall m => fun s => (showNewMessages cfg m s, none)
  | GuardedCall.getVisitorIdCall => getVisitorId cfg
  | GuardedCall.startTourCall t => fun s => (startTour cfg t s, none)
  | GuardedCall.trackEventCall e md => fun s => (trackEvent cfg e md s, none)

/-- The unguarded action of each guarded command: exactly the callback body
each command hands to `ensureIntercom`, together with its returned value. -/
def guardedAction (cfg : Config) : GuardedCall → PState → PState × Option String
  | GuardedCall.updateCall now props => fun s =>
      match props with
      | none => (refresh cfg now s, none)
      | some rawProps =>
        let s := { s with window := { s.window with
          intercomSettings := some (smerge (s.window.intercomSettings.getD []) rawProps) } }
        (dispatch (Cmd.updateCmd rawProps) s, none)
  | GuardedCall.hideCall => fun s => (dispatch Cmd.hideCmd s, none)
  | GuardedCall.showCall => fun s => (dispatch Cmd.showCmd s, none)
  | GuardedCall.showMessagesCall => fun s => (dispatch Cmd.showMessagesCmd s, none)
  | GuardedCall.showNewMessagesCall m => fun s => (dispatch (Cmd.showNewMessageCmd m) s, none)
  | GuardedCall.getVisitorIdCall => fun s => (dispatch Cmd.getVisitorIdCmd s, some s.window.visitorId)
  | GuardedCall.startTourCall t => fun s => (dispatch (Cmd.startTourCmd t) s, none)
  | GuardedCall.trackEventCall e md => fun s => (dispatch (Cmd.trackEventCmd e md) s, none)

/-- Everything that can happen to a mounted provider: one of its own
operations, an interval tick at a wall time, or the external vendor script
mutating the window globals outside this system's control. -/
inductive Op where
  | bootOp (props : Option Settings)
  | shutdownOp
  | hardShutdownOp
  | guardedOp (g : GuardedCall)
  | tickOp (now : Nat)
  | extSetIntercom (present : Bool)
  | extSetSettings (v : Option Settings)
deriving DecidableEq, Repr

/-- The step function of the provider state machine. -/
def stepOp (cfg : Config) : Op → PState → PState
  | Op.bootOp p => boot cfg p
  | Op.shutdownOp => shutdown
  | Op.hardShutdownOp => hardShutdown
  | Op.guardedOp g => fun s => (runGuarded cfg g s).1
  | Op.tickOp now => pingTick cfg now
  | Op.extSetIntercom b => fun s => { s with window := { s.window with wIntercom := b } }
  | Op.extSetSettings v => fun s => { s with window := { s.window with intercomSettings := v } }

/-- Run a sequence of operations from a state. -/
def run (cfg : Config) (ops : List Op) (s : PState) : PState :=
  ops.foldl (fun s o => stepOp cfg o s) s

/-- The commands `provider.tsx` forwards outside the readiness guard: the
`boot` command itself (forwarded in the same `boot` call that then sets
`isBooted`), and the listener registrations of
`initializeAndAttachListeners`. -/
def isPreBootCmd : Cmd → Bool
  | Cmd.bootCmd _ => true
  | Cmd.onHideCmd => true
  | Cmd.onShowCmd => true
  | Cmd.onUnreadCountChangeCmd => true
  | _ => false

/-- Is this trace entry a `boot` command? -/
def isBootCmd : Cmd → Bool
  | Cmd.bootCmd _ => true
  | _ => false

/-- How many `boot` commands a trace contains. -/
def bootCount (tr : List (Cmd × Bool)) : Nat :=
  tr.countP (fun p => isBootCmd p.1)

/-! ## The polling primitive `useInterval` -/

/-- The observable state of one `useInterval(callback, delay)` hook:
the `savedCallback` ref, the `delay` the last render supplied (the
dependency of the timer effect), the currently armed timer — its
`setInterval` id paired with the milliseconds remaining until its next
fire — and the id the next `setInterval` call would return.  The callback
type is abstract: callbacks are compared and returned, never applied. -/
structure IntervalState (α : Type) where
  savedCallback : α
  delay : Option Nat
  timer : Option (Nat × Nat)
  nextId : Nat
deriving DecidableEq, Repr

/-- The first render of `useInterval(cb, d)`: both effects run — the ref
takes `cb`, and a timer is armed exactly when `d` is not `null`. -/
def initInterval {α : Type} (cb : α) (d : Option Nat) : IntervalState α :=
  { savedCallback := cb
    delay := d
    timer := d.map (fun dd => (0, dd))
    nextId := 1 }

/-- A re-render of `useInterval(cb, d)`: the first effect remembers the
latest callback; the second effect has dependency `[delay]`, so only when
`d` differs from the last render's delay is the old timer cleared and — when
`d` is not `null` — a fresh one armed with a full countdown. -/
def renderInterval {α : Type} (cb : α) (d : Option Nat) (st : IntervalState α) : IntervalState α :=
  let st := { st with savedCallback := cb }
  if d = st.delay then st
  else
    match d with
    | some dd => { st with delay := some dd, timer := some (st.nextId, dd), nextId := st.nextId + 1 }
    | none => { st with delay := none, timer := none }

/-- One tick of the armed timer: `tick()` reads `savedCallback.current` at
fire time and invokes it; the returned `α` is the callback that was invoked.
The interval re-arms its own countdown.  Nothing fires when no timer is
armed. -/
def fireTick {α : Type} (st : IntervalState α) : IntervalState α × Option α :=
  match st.timer with
  | some (id, _) => ({ st with timer := some (id, st.delay.getD 0) }, some st.savedCallback)
  | none => (st, none)

/-! ## Basic lemmas -/

/-- Spread semantics of the merge: a key bound in `b` takes `b`'s value,
otherwise `a`'s survives. -/
theorem slookup_smerge (a b : Settings) (k : String) :
    slookup (smerge a b) k = (slookup b k).or (slookup a k) := by
  unfold slookup smerge
  rw [List.reverse_append, List.find?_append]
  cases b.reverse.find? (fun p => p.1 = k) <;> simp [Option.or]

/-- The first guard of `boot` and `ensureIntercom` is passed whenever the
vendor handle is present or self-initialization is allowed. -/
theorem guard_false_of {cfg : Config} {s : PState}
    (hg : s.window.wIntercom = true ∨ cfg.shouldInitialize = true) :
    (!s.window.wIntercom && !cfg.shouldInitialize) = false := by
  rcases hg with h | h <;> simp [h]

/-- A trace extended by one entry has one more `boot` command exactly when
that entry is one. -/
theorem bootCount_append (tr : List (Cmd × Bool)) (c : Cmd) (b : Bool) :
    bootCount (tr ++ [(c, b)]) = bootCount tr + (if isBootCmd c then 1 else 0) := by
  unfold bootCount
  rw [List.countP_append, List.countP_singleton]

/-! ## Concrete instances used by the closed theorems -/

/-- A window with no vendor handle, no settings blob, and a blank visitor
id. -/
def wAbsent : WindowState :=
  { wIntercom := false, intercomSettings := none, visitorId := "" }

/-- A configuration expecting an externally-loaded instance, with the
default fallback (enabled, 30000 ms), allowed to initialize, client-side. -/
def cfgExternal : Config :=
  { appId := "abc123"
    autoBoot := true
    hasOnHide := false
    hasOnShow := false
    hasOnUnreadCountChange := false
    hasOnInitialize := false
    hasOnBoot := false
    shouldInitialize := true
    apiBase := none
    externalIntercom := true
    externalIntercomFallback := true
    externalIntercomFallbackDelay := 30000
    isSSR := false }

/-- A self-initializing client-side configuration (no external instance, no
auto-boot, no callbacks). -/
def cfgInternal : Config :=
  { appId := "abc123"
    autoBoot := false
    hasOnHide := false
    hasOnShow := false
    hasOnUnreadCountChange := false
    hasOnInitialize := false
    hasOnBoot := false
    shouldInitialize := true
    apiBase := none
    externalIntercom := false
    externalIntercomFallback := true
    externalIntercomFallbackDelay := 30000
    isSSR := false }

/-- The state of a freshly mounted `cfgInternal` provider: initialized but
not booted. -/
def sIdle : PState := mount cfgInternal 0 wAbsent

/-- `sIdle` after a successful `boot()`. -/
def sBooted : PState := boot cfgInternal none sIdle

/-! ## C1 and C2: the ping loop -/

/-- While `ping` holds and an external instance is expected, the delay the
provider hands to `useInterval` is the `null` sentinel, so the scheduler
never fires the callback. -/
theorem pingTick_frozen (cfg : Config) (now : Nat) (s : PState)
    (he : cfg.externalIntercom = true) (hp : s.ping = true) :
    pingTick cfg now s = s := by
  unfold pingTick pingIntervalDelay shouldPing
  simp [he, hp]

/-- Any sequence of scheduler steps leaves a pinging external-instance state
untouched. -/
theorem run_ticks_frozen (cfg : Config) (ts : List Nat) (s : PState)
    (he : cfg.externalIntercom = true) (hp : s.ping = true) :
    run cfg (ts.map Op.tickOp) s = s := by
  induction ts with
  | nil => rfl
  | cons t ts ih =>
    have hstep : stepOp cfg (Op.tickOp t) s = s := pingTick_frozen cfg t s he hp
    calc run cfg ((t :: ts).map Op.tickOp) s
        = run cfg (ts.map Op.tickOp) (stepOp cfg (Op.tickOp t) s) := rfl
      _ = run cfg (ts.map Op.tickOp) s := by rw [hstep]
      _ = s := ih

/-- C1: with `externalIntercom = true`, fallback enabled with delay 30000 ms
and the vendor entry point never appearing, the claim says initialization is
performed exactly once, on a tick at or after the fallback delay.  The code
does the opposite: `useInterval` receives `shouldPing ? null : 1000`, so the
interval is disarmed for the whole ping state, no tick ever fires — at any
wall-clock times whatsoever, arbitrarily far past the fallback delay — and
`initialize` is performed zero times, never once. -/
theorem external_ping_never_fires (ts : List Nat) :
    run cfgExternal (ts.map Op.tickOp) (mount cfgExternal 0 wAbsent)
      = mountState 0 wAbsent
  ∧ (run cfgExternal (ts.map Op.tickOp) (mount cfgExternal 0 wAbsent)).initializeCalls = 0 := by
  have hm : mount cfgExternal 0 wAbsent = mountState 0 wAbsent := rfl
  have h : run cfgExternal (ts.map Op.tickOp) (mountState 0 wAbsent) = mountState 0 wAbsent :=
    run_ticks_frozen cfgExternal ts (mountState 0 wAbsent) rfl rfl
  rw [hm, h]
  exact ⟨rfl, rfl⟩

/-- Witness for `external_ping_never_fires`: two ticks scheduled well past
the 30000 ms fallback delay still leave the mounted state untouched. -/
theorem external_ping_never_fires_witness :
    run cfgExternal ([31000, 62000].map Op.tickOp) (mount cfgExternal 0 wAbsent)
      = mountState 0 wAbsent :=
  (external_ping_never_fires [31000, 62000]).1

/-- C2: the claim says that once the ping state is exited the polling
interval is disarmed for the rest of the mount.  Evaluating the delay the
provider hands to `useInterval` shows the inversion: in the exited state
(`ping = false`) the interval is armed at 1000 ms, and while the ping state
is active it is the one that is disarmed. -/
theorem ping_interval_armed_after_exit :
    pingIntervalDelay cfgExternal { mountState 0 wAbsent with ping := false } = some 1000
  ∧ pingIntervalDelay cfgExternal (mountState 0 wAbsent) = none := ⟨rfl, rfl⟩

/-! ## C3: what can be dispatched while not booted -/

/-- Every `IntercomAPI` call in the trace that happened while
`isBooted = false` was a `boot` command or a listener registration. -/
def dispatchInv (s : PState) : Prop :=
  ∀ p ∈ s.dispatched, p.2 = false → isPreBootCmd p.1 = true

/-- `t`'s trace extends `s`'s by entries that are all admissible before
boot or made while booted. -/
def GoodExt (s t : PState) : Prop :=
  ∃ extra, t.dispatched = s.dispatched ++ extra
    ∧ ∀ p ∈ extra, p.2 = false → isPreBootCmd p.1 = true

theorem goodExt_refl (s : PState) : GoodExt s s :=
  ⟨[], by simp, by simp⟩

theorem goodExt_trans {s t u : PState} (h1 : GoodExt s t) (h2 : GoodExt t u) : GoodExt s u := by
  obtain ⟨e1, he1, g1⟩ := h1
  obtain ⟨e2, he2, g2⟩ := h2
  refine ⟨e1 ++ e2, by rw [he2, he1, List.append_assoc], ?_⟩
  intro p hp
  rcases List.mem_append.1 hp with h | h
  · exact g1 p h
  · exact g2 p h

theorem goodExt_of_dispatched_eq {s t : PState} (h : t.dispatched = s.dispatched) :
    GoodExt s t :=
  ⟨[], by simp [h], by simp⟩

theorem goodExt_dispatch_pre (c : Cmd) (s : PState) (hc : isPreBootCmd c = true) :
    GoodExt s (dispatch c s) := by
  refine ⟨[(c, s.isBooted)], rfl, ?_⟩
  intro p hp _
  rw [List.mem_singleton] at hp
  rw [hp]
  exact hc

theorem goodExt_dispatch_booted (c : Cmd) (s : PState) (hb : s.isBooted = true) :
    GoodExt s (dispatch c s) := by
  refine ⟨[(c, s.isBooted)], rfl, ?_⟩
  intro p hp hf
  rw [List.mem_singleton] at hp
  rw [hp, hb] at hf
  exact absurd hf (by simp)

theorem goodExt_dispatch_ite (c : Cmd) (b : Bool) (s : PState) (hc : isPreBootCmd c = true) :
    GoodExt s (if b then dispatch c s else s) := by
  cases b
  · exact goodExt_refl s
  · exact goodExt_dispatch_pre c s hc

theorem goodExt_boot (cfg : Config) (p : Option Settings) (s : PState) :
    GoodExt s (boot cfg p s) := by
  unfold boot
  split
  · exact goodExt_of_dispatched_eq rfl
  · split
    · exact goodExt_refl s
    · split
      all_goals
        exact goodExt_trans (goodExt_of_dispatched_eq rfl)
          (goodExt_trans (goodExt_dispatch_pre (Cmd.bootCmd _) _ rfl)
            (goodExt_of_dispatched_eq rfl))

theorem goodExt_boot_ite (cfg : Config) (p : Option Settings) (b : Bool) (s : PState) :
    GoodExt s (if b then boot cfg p s else s) := by
  cases b
  · exact goodExt_refl s
  · exact goodExt_boot cfg p s

theorem goodExt_init (cfg : Config) (s : PState) :
    GoodExt s (initializeAndAttachListeners cfg s) := by
  unfold initializeAndAttachListeners
  exact goodExt_trans
    (goodExt_trans
      (goodExt_trans
        (goodExt_trans
          (goodExt_of_dispatched_eq (by split <;> rfl))
          (goodExt_dispatch_ite Cmd.onHideCmd _ _ rfl))
        (goodExt_dispatch_ite Cmd.onShowCmd _ _ rfl))
      (goodExt_dispatch_ite Cmd.onUnreadCountChangeCmd _ _ rfl))
    (goodExt_boot_ite _ _ _ _)

theorem goodExt_ensure (cfg : Config) (n : String)
    (cb : PState → PState × Option String) (s : PState)
    (hcb : ∀ t, t.isBooted = true → GoodExt t (cb t).1) :
    GoodExt s (ensureIntercom cfg n cb s).1 := by
  unfold ensureIntercom
  split
  · exact goodExt_of_dispatched_eq rfl
  · split
    · exact goodExt_of_dispatched_eq rfl
    · rename_i h2
      exact hcb s (by simpa using h2)

theorem goodExt_refresh (cfg : Config) (now : Nat) (s : PState) :
    GoodExt s (refresh cfg now s) := by
  unfold refresh
  exact goodExt_ensure cfg _ _ s (fun t ht => goodExt_dispatch_booted _ t ht)

theorem goodExt_runGuarded (cfg : Config) (g : GuardedCall) (s : PState) :
    GoodExt s (runGuarded cfg g s).1 := by
  cases g with
  | updateCall now props =>
    show GoodExt s (update cfg now props s)
    unfold update
    refine goodExt_ensure cfg _ _ s ?_
    intro t ht
    cases props with
    | none => exact goodExt_refresh cfg now t
    | some raw =>
      exact goodExt_trans (goodExt_of_dispatched_eq rfl) (goodExt_dispatch_booted _ _ ht)
  | hideCall =>
    exact goodExt_ensure cfg _ _ s (fun t ht => goodExt_dispatch_booted _ t ht)
  | showCall =>
    exact goodExt_ensure cfg _ _ s (fun t ht => goodExt_dispatch_booted _ t ht)
  | showMessagesCall =>
    exact goodExt_ensure cfg _ _ s (fun t ht => goodExt_dispatch_booted _ t ht)
  | showNewMessagesCall m =>
    refine goodExt_ensure cfg _ _ s ?_
    intro t ht
    cases m <;> exact goodExt_dispatch_booted _ t ht
  | getVisitorIdCall =>
    exact goodExt_ensure cfg _ _ s (fun t ht => goodExt_dispatch_booted _ t ht)
  | startTourCall tid =>
    exact goodExt_ensure cfg _ _ s (fun t ht => goodExt_dispatch_booted _ t ht)
  | trackEventCall e md =>
    refine goodExt_ensure cfg _ _ s ?_
    intro t ht
    cases md <;> exact goodExt_dispatch_booted _ t ht

theorem goodExt_shutdown (s : PState) : GoodExt s (shutdown s) := by
  unfold shutdown
  split
  · exact goodExt_refl s
  · rename_i h
    exact goodExt_trans (goodExt_dispatch_booted _ _ (by simpa using h))
      (goodExt_of_dispatched_eq rfl)

theorem goodExt_hardShutdown (s : PState) : GoodExt s (hardShutdown s) := by
  unfold hardShutdown
  split
  · exact goodExt_refl s
  · rename_i h
    exact goodExt_trans (goodExt_dispatch_booted _ _ (by simpa using h))
      (goodExt_of_dispatched_eq rfl)

theorem goodExt_pingTick (cfg : Config) (now : Nat) (s : PState) :
    GoodExt s (pingTick cfg now s) := by
  unfold pingTick pingTickBody
  split
  · split
    · split
      · exact goodExt_trans (goodExt_init cfg s) (goodExt_of_dispatched_eq rfl)
      · split
        · exact goodExt_trans (goodExt_init cfg s) (goodExt_of_dispatched_eq rfl)
        · exact goodExt_refl s
    · exact goodExt_refl s
  · exact goodExt_refl s

theorem goodExt_stepOp (cfg : Config) (o : Op) (s : PState) :
    GoodExt s (stepOp cfg o s) := by
  cases o with
  | bootOp p => exact goodExt_boot cfg p s
  | shutdownOp => exact goodExt_shutdown s
  | hardShutdownOp => exact goodExt_hardShutdown s
  | guardedOp g => exact goodExt_runGuarded cfg g s
  | tickOp now => exact goodExt_pingTick cfg now s
  | extSetIntercom b => exact goodExt_of_dispatched_eq rfl
  | extSetSettings v => exact goodExt_of_dispatched_eq rfl

theorem dispatchInv_of_goodExt {s t : PState} (h : GoodExt s t) (hs : dispatchInv s) :
    dispatchInv t := by
  obtain ⟨extra, he, g⟩ := h
  intro p hp hf
  rw [he] at hp
  rcases List.mem_append.1 hp with hmem | hmem
  · exact hs p hmem hf
  · exact g p hmem hf

theorem dispatchInv_run (cfg : Config) (ops : List Op) (s : PState) (h : dispatchInv s) :
    dispatchInv (run cfg ops s) := by
  induction ops generalizing s with
  | nil => exact h
  | cons o ops ih =>
    exact ih (stepOp cfg o s)
      (dispatchInv_of_goodExt (goodExt_stepOp cfg o s) h)

/-- `cfgInternal` with an `onHide` listener supplied. -/
def cfgListeners : Config :=
  { cfgInternal with hasOnHide := true }

/-- C3, counterexample: mounting a self-initializing provider with an
`onHide` listener and `autoBoot` off forwards the `onHide` registration
through `IntercomAPI` while `isBooted` is still `false` — so it is not true
that every dispatch happens only after `booted` was set. -/
theorem listener_dispatch_before_boot_cx :
    (mount cfgListeners 0 wAbsent).dispatched = [(Cmd.onHideCmd, false)]
  ∧ ¬ (∀ p ∈ (mount cfgListeners 0 wAbsent).dispatched, p.2 = true) := by
  constructor
  · rfl
  · decide

/-- C3, amended: in every state reachable by any operation sequence from any
mount, every command forwarded while `booted = false` is either the `boot`
command itself (forwarded inside the `boot` call that immediately then sets
`isBooted`) or one of the listener registrations `onHide` / `onShow` /
`onUnreadCountChange` performed during one-time initialization; every other
command — the whole guarded surface, and `shutdown` — is forwarded only
while `booted = true`. -/
theorem dispatch_before_boot_inv (cfg : Config) (now : Nat) (w : WindowState) (ops : List Op) :
    dispatchInv (run cfg ops (mount cfg now w)) := by
  apply dispatchInv_run
  apply dispatchInv_of_goodExt (t := mount cfg now w)
  · unfold mount
    split
    · exact goodExt_init cfg (mountState now w)
    · exact goodExt_refl (mountState now w)
  · intro p hp
    exact absurd hp (by simp [mountState])

/-- Witness for `dispatch_before_boot_inv`: a mount with a listener,
followed by a boot and a guarded call. -/
theorem dispatch_before_boot_inv_witness :
    dispatchInv (run cfgListeners [Op.bootOp none, Op.guardedOp GuardedCall.hideCall]
      (mount cfgListeners 0 wAbsent)) :=
  dispatch_before_boot_inv cfgListeners 0 wAbsent
    [Op.bootOp none, Op.guardedOp GuardedCall.hideCall]

/-! ## C4: what a successful boot computes and stores -/

/-- The success branch of `boot`, as one record equation: settings stored,
`boot` command appended to the trace (made while `isBooted` still read
`false`), `isBooted` set, `onBoot` counted when supplied, and nothing else
touched. -/
theorem boot_success_eq (cfg : Config) (props : Option Settings) (s : PState)
    (hg : s.window.wIntercom = true ∨ cfg.shouldInitialize = true)
    (hb : s.isBooted = false) :
    boot cfg props s = { s with
      window := { s.window with intercomSettings := some (getIntercomSettings cfg s.window props) },
      dispatched := s.dispatched ++ [(Cmd.bootCmd (getIntercomSettings cfg s.window props), false)],
      isBooted := true,
      onBootCalls := s.onBootCalls + (if cfg.hasOnBoot then 1 else 0) } := by
  have hguard := guard_false_of hg
  unfold boot
  simp only [hguard, hb, Bool.false_eq_true, if_false, dispatch]
  split <;> rfl

/-- `sIdle` after the external vendor script wrote a settings blob of its
own into `window.intercomSettings`. -/
def sExtBlob : PState :=
  run cfgInternal [Op.extSetSettings (some [("foo", "bar")])] sIdle

/-- C4, counterexample: with `externalIntercom = false` and an
externally-written global settings blob `\x7b foo: bar \x7d`, a successful
`boot()` stores only this call's computed settings — the externally-set blob
is dropped, not merged, so the key `foo` that the claimed merge would keep
is gone. -/
theorem boot_merge_cx :
    (boot cfgInternal none sExtBlob).window.intercomSettings = some [("app_id", "abc123")]
  ∧ (boot cfgInternal none sExtBlob).window.intercomSettings
      ≠ some (smerge (sExtBlob.window.intercomSettings.getD []) (commonSettings cfgInternal none))
  ∧ slookup (smerge (sExtBlob.window.intercomSettings.getD [])
      (commonSettings cfgInternal none)) "foo" = some "bar"
  ∧ slookup [("app_id", "abc123")] "foo" = none := by
  refine ⟨rfl, ?_, rfl, rfl⟩
  decide

/-- C4, amended: a `boot(props)` that passes the guard while not booted
stores `getIntercomSettings` as the new global blob, forwards a `boot`
command with exactly those settings, sets `booted`, silently (no warning)
invokes `onBoot` exactly when one was supplied — and the stored settings are
the merge of the externally-set blob with this call's computed settings
(later keys winning) when `externalIntercom` is true, but just this call's
computed settings when it is false. -/
theorem boot_spec (cfg : Config) (props : Option Settings) (s : PState)
    (hg : s.window.wIntercom = true ∨ cfg.shouldInitialize = true)
    (hb : s.isBooted = false) :
    (boot cfg props s).window.intercomSettings
      = some (getIntercomSettings cfg s.window props)
  ∧ (boot cfg props s).dispatched
      = s.dispatched ++ [(Cmd.bootCmd (getIntercomSettings cfg s.window props), false)]
  ∧ (boot cfg props s).isBooted = true
  ∧ (boot cfg props s).onBootCalls = s.onBootCalls + (if cfg.hasOnBoot then 1 else 0)
  ∧ (boot cfg props s).warnings = s.warnings
  ∧ (cfg.externalIntercom = true →
      getIntercomSettings cfg s.window props
        = smerge (s.window.intercomSettings.getD []) (commonSettings cfg props))
  ∧ (cfg.externalIntercom = false →
      getIntercomSettings cfg s.window props = commonSettings cfg props)
  ∧ (∀ k, slookup (smerge (s.window.intercomSettings.getD []) (commonSettings cfg props)) k
        = (slookup (commonSettings cfg props) k).or
            (slookup (s.window.intercomSettings.getD []) k)) := by
  rw [boot_success_eq cfg props s hg hb]
  refine ⟨rfl, rfl, rfl, rfl, rfl, ?_, ?_, fun k => slookup_smerge _ _ k⟩
  · intro he
    unfold getIntercomSettings
    rw [he]
    rfl
  · intro he
    unfold getIntercomSettings
    rw [he]
    rfl

/-- Witness for `boot_spec`: an external-instance configuration whose window
already holds a vendor-written blob, booted with mapped raw props
`\x7b name: Jane \x7d`. -/
theorem boot_spec_witness :
    ((mountState 0 { wIntercom := true, intercomSettings := some [("foo", "bar")], visitorId := "" }).window.wIntercom = true
      ∨ cfgExternal.shouldInitialize = true)
  ∧ (mountState 0 { wIntercom := true, intercomSettings := some [("foo", "bar")], visitorId := "" }).isBooted = false
  ∧ (boot cfgExternal (some [("name", "Jane")])
      (mountState 0 { wIntercom := true, intercomSettings := some [("foo", "bar")], visitorId := "" })).window.intercomSettings
      = some [("foo", "bar"), ("app_id", "abc123"), ("name", "Jane")] := by
  refine ⟨Or.inl rfl, rfl, ?_⟩
  have h := (boot_spec cfgExternal (some [("name", "Jane")])
    (mountState 0 { wIntercom := true, intercomSettings := some [("foo", "bar")], visitorId := "" })
    (Or.inl rfl) rfl).1
  rw [h]
  rfl

/-! ## C5: the readiness guard of the outward-facing commands -/

/-- C5: every guarded command behaves as the three-branch guard dictates —
when the vendor handle is absent and `shouldInitialize` is false it only
logs the not-initialized warning and returns no value; when not booted it
only logs the warning naming the attempted operation and returns no value;
otherwise it performs exactly its unguarded action and returns that action's
result. -/
theorem ensureIntercom_guard_spec (cfg : Config) (g : GuardedCall) (s : PState) :
    ((!s.window.wIntercom && !cfg.shouldInitialize) = true →
      runGuarded cfg g s = ({ s with warnings := s.warnings ++ [notInitializedWarning] }, none))
  ∧ ((!s.window.wIntercom && !cfg.shouldInitialize) = false → s.isBooted = false →
      runGuarded cfg g s
        = ({ s with warnings := s.warnings ++ [notBootedWarning (guardedName g)] }, none))
  ∧ ((!s.window.wIntercom && !cfg.shouldInitialize) = false → s.isBooted = true →
      runGuarded cfg g s = guardedAction cfg g s) := by
  refine ⟨?_, ?_, ?_⟩
  · intro h
    cases g <;> simp [runGuarded, update, hide, showFn, showMessages, showNewMessages,
      getVisitorId, startTour, trackEvent, ensureIntercom, h]
  · intro h hb
    cases g <;> simp [runGuarded, update, hide, showFn, showMessages, showNewMessages,
      getVisitorId, startTour, trackEvent, ensureIntercom, guardedName, h, hb]
  · intro h hb
    cases g with
    | updateCall now props =>
      cases props <;> simp [runGuarded, update, ensureIntercom, guardedAction, h, hb]
    | showNewMessagesCall m =>
      cases m <;> simp [runGuarded, showNewMessages, ensureIntercom, guardedAction, h, hb]
    | trackEventCall e md =>
      cases md <;> simp [runGuarded, trackEvent, ensureIntercom, guardedAction, h, hb]
    | _ =>
      simp [runGuarded, hide, showFn, showMessages, getVisitorId, startTour,
        ensureIntercom, guardedAction, h, hb]

/-- `cfgInternal` forbidden to self-initialize. -/
def cfgNoInit : Config :=
  { cfgInternal with shouldInitialize := false }

/-- Witness for `ensureIntercom_guard_spec`: all three guard branches at
concrete states — not-initialized, not-booted, and booted. -/
theorem ensureIntercom_guard_spec_witness :
    (!(mountState 0 wAbsent).window.wIntercom && !cfgNoInit.shouldInitialize) = true
  ∧ runGuarded cfgNoInit GuardedCall.showCall (mountState 0 wAbsent)
      = ({ mountState 0 wAbsent with
            warnings := (mountState 0 wAbsent).warnings ++ [notInitializedWarning] }, none)
  ∧ (!sIdle.window.wIntercom && !cfgInternal.shouldInitialize) = false
  ∧ sIdle.isBooted = false
  ∧ runGuarded cfgInternal GuardedCall.hideCall sIdle
      = ({ sIdle with warnings := sIdle.warnings ++ [notBootedWarning (guardedName GuardedCall.hideCall)] }, none)
  ∧ sBooted.isBooted = true
  ∧ runGuarded cfgInternal GuardedCall.hideCall sBooted
      = guardedAction cfgInternal GuardedCall.hideCall sBooted := by
  refine ⟨rfl, ?_, rfl, rfl, ?_, rfl, ?_⟩
  · exact (ensureIntercom_guard_spec cfgNoInit GuardedCall.showCall (mountState 0 wAbsent)).1 rfl
  · exact (ensureIntercom_guard_spec cfgInternal GuardedCall.hideCall sIdle).2.1 rfl rfl
  · exact (ensureIntercom_guard_spec cfgInternal GuardedCall.hideCall sBooted).2.2 rfl rfl

/-! ## C6 and C7: boot-once and shutdown idempotence -/

/-- `boot` on an already-booted state that still passes the first guard is a
silent no-op. -/
theorem boot_booted_id (cfg : Config) (p : Option Settings) (s : PState)
    (hg : s.window.wIntercom = true ∨ cfg.shouldInitialize = true)
    (hb : s.isBooted = true) :
    boot cfg p s = s := by
  have hguard := guard_false_of hg
  unfold boot
  simp [hguard, hb]

/-- Repeated `boot` calls on a booted, guard-passing state change nothing. -/
theorem foldl_boot_booted (cfg : Config) (rest : List (Option Settings)) (t : PState)
    (hg : t.window.wIntercom = true ∨ cfg.shouldInitialize = true)
    (hb : t.isBooted = true) :
    rest.foldl (fun st q => boot cfg q st) t = t := by
  induction rest with
  | nil => rfl
  | cons q rest ih =>
    rw [List.foldl_cons, boot_booted_id cfg q t hg hb]
    exact ih

/-- C6: from a guard-passing, not-yet-booted state, across any sequence of
repeated `boot()` calls with no intervening shutdown, the `boot` command is
forwarded exactly once — on the first call — `booted` flips to `true` once,
and every later call in the sequence is a silent no-op (the state does not
change at all). -/
theorem boot_exactly_once (cfg : Config) (p : Option Settings)
    (rest : List (Option Settings)) (s : PState)
    (hg : s.window.wIntercom = true ∨ cfg.shouldInitialize = true)
    (hb : s.isBooted = false) :
    (boot cfg p s).isBooted = true
  ∧ bootCount (boot cfg p s).dispatched = bootCount s.dispatched + 1
  ∧ rest.foldl (fun st q => boot cfg q st) (boot cfg p s) = boot cfg p s := by
  have he := boot_success_eq cfg p s hg hb
  refine ⟨by rw [he], ?_, ?_⟩
  · rw [he]
    exact bootCount_append s.dispatched _ false
  · refine foldl_boot_booted cfg rest (boot cfg p s) ?_ (by rw [he])
    rcases hg with h | h
    · exact Or.inl (by rw [he]; exact h)
    · exact Or.inr h

/-- Witness for `boot_exactly_once`: a mounted self-initializing provider
booted three times in a row. -/
theorem boot_exactly_once_witness :
    (sIdle.window.wIntercom = true ∨ cfgInternal.shouldInitialize = true)
  ∧ sIdle.isBooted = false
  ∧ (boot cfgInternal none sIdle).isBooted = true
  ∧ bootCount (boot cfgInternal none sIdle).dispatched = bootCount sIdle.dispatched + 1
  ∧ [none, some [("name", "Jane")]].foldl (fun st q => boot cfgInternal q st)
      (boot cfgInternal none sIdle) = boot cfgInternal none sIdle := by
  have h := boot_exactly_once cfgInternal none [none, some [("name", "Jane")]] sIdle
    (Or.inr rfl) rfl
  exact ⟨Or.inr rfl, rfl, h.1, h.2.1, h.2.2⟩

/-- C7: `shutdown()` in the not-booted state is the identity, so any number
of repeated `shutdown` calls without an intervening successful boot leaves
the state — the trace included — unchanged, and in particular never forwards
a `shutdown` command. -/
theorem shutdown_idempotent_not_booted (s : PState) (h : s.isBooted = false) (n : Nat) :
    shutdown^[n] s = s ∧ (shutdown^[n] s).dispatched = s.dispatched := by
  have h1 : shutdown s = s := by unfold shutdown; simp [h]
  have h2 := Function.iterate_fixed h1 n
  exact ⟨h2, by rw [h2]⟩

/-- Witness for `shutdown_idempotent_not_booted`: three shutdowns on the
idle mounted state. -/
theorem shutdown_idempotent_not_booted_witness :
    sIdle.isBooted = false ∧ shutdown^[3] sIdle = sIdle :=
  ⟨rfl, (shutdown_idempotent_not_booted sIdle rfl 3).1⟩

/-! ## C8: hardShutdown -/

/-- A window already populated by the external vendor script. -/
def wVendor : WindowState :=
  { wIntercom := true, intercomSettings := some [("a", "b")], visitorId := "" }

/-- C8, counterexample: `hardShutdown()` called while not booted is a
no-op — the vendor handle and the settings blob survive, so it is not true
that after any call to `hardShutdown` both globals are cleared. -/
theorem hardShutdown_not_booted_cx :
    hardShutdown (mount cfgInternal 0 wVendor) = mount cfgInternal 0 wVendor
  ∧ (hardShutdown (mount cfgInternal 0 wVendor)).window.wIntercom = true
  ∧ (hardShutdown (mount cfgInternal 0 wVendor)).window.intercomSettings = some [("a", "b")]
  ∧ ¬ ((hardShutdown (mount cfgInternal 0 wVendor)).window.wIntercom = false
      ∧ (hardShutdown (mount cfgInternal 0 wVendor)).window.intercomSettings = none) := by
  refine ⟨rfl, rfl, rfl, ?_⟩
  decide

/-- The booted branch of `hardShutdown`, as one record equation. -/
theorem hardShutdown_booted_eq (s : PState) (hb : s.isBooted = true) :
    hardShutdown s = { s with
      window := { s.window with wIntercom := false, intercomSettings := none },
      dispatched := s.dispatched ++ [(Cmd.shutdownCmd, true)],
      isBooted := false } := by
  unfold hardShutdown
  simp [hb, dispatch]

/-- C8, amended: after a `hardShutdown()` performed while booted, the vendor
handle and the global settings blob are both cleared and `booted` is false;
a subsequent `boot()` then re-initializes successfully provided
`shouldInitialize` is true (without it the guard fails, the handle having
just been deleted): it forwards one more `boot` command, stores fresh
settings, and sets `booted` again. -/
theorem hardShutdown_spec (cfg : Config) (p : Option Settings) (s : PState)
    (hb : s.isBooted = true) (hsi : cfg.shouldInitialize = true) :
    (hardShutdown s).window.wIntercom = false
  ∧ (hardShutdown s).window.intercomSettings = none
  ∧ (hardShutdown s).isBooted = false
  ∧ (boot cfg p (hardShutdown s)).isBooted = true
  ∧ bootCount (boot cfg p (hardShutdown s)).dispatched
      = bootCount (hardShutdown s).dispatched + 1
  ∧ (boot cfg p (hardShutdown s)).window.intercomSettings
      = some (getIntercomSettings cfg (hardShutdown s).window p) := by
  have he := hardShutdown_booted_eq s hb
  have hb2 : (hardShutdown s).isBooted = false := by rw [he]
  have he2 := boot_success_eq cfg p (hardShutdown s) (Or.inr hsi) hb2
  refine ⟨by rw [he], by rw [he], hb2, by rw [he2], ?_, by rw [he2]⟩
  rw [he2]
  exact bootCount_append (hardShutdown s).dispatched _ false

/-- Witness for `hardShutdown_spec`: tear down the booted provider and boot
it again. -/
theorem hardShutdown_spec_witness :
    sBooted.isBooted = true
  ∧ cfgInternal.shouldInitialize = true
  ∧ (hardShutdown sBooted).window.wIntercom = false
  ∧ (hardShutdown sBooted).window.intercomSettings = none
  ∧ (boot cfgInternal none (hardShutdown sBooted)).isBooted = true := by
  have h := hardShutdown_spec cfgInternal none sBooted rfl rfl
  exact ⟨rfl, rfl, h.1, h.2.1, h.2.2.2.1⟩

/-! ## C9: the polling primitive -/

/-- C9: across an update of `useInterval` — (i) the hook always remembers
the newest callback; (ii) when the delay is unchanged nothing else changes:
the armed timer keeps its identity and its remaining countdown even though a
new callback was supplied; (iii) when the delay changes to a value, the old
timer is torn down and a fresh one is armed with a full countdown (a new
timer identity); (iv) when the delay changes to the disabled sentinel, the
timer is torn down and none is armed; and (v) a tick that fires after a
callback-only update invokes the most recently remembered callback — not
the one captured when the timer was armed — on the timer armed before the
update. -/
theorem useInterval_spec {α : Type} (st : IntervalState α) (cb : α) (d : Option Nat) :
    (renderInterval cb d st).savedCallback = cb
  ∧ (d = st.delay → renderInterval cb d st = { st with savedCallback := cb })
  ∧ (∀ dd, d ≠ st.delay → d = some dd →
      renderInterval cb d st = { st with
        savedCallback := cb
        delay := some dd
        timer := some (st.nextId, dd)
        nextId := st.nextId + 1 })
  ∧ (d ≠ st.delay → d = none →
      renderInterval cb d st = { st with
        savedCallback := cb
        delay := none
        timer := none })
  ∧ (∀ id r, st.timer = some (id, r) →
      fireTick (renderInterval cb st.delay st)
        = ({ st with savedCallback := cb, timer := some (id, st.delay.getD 0) }, some cb)) := by
  have hsame : ∀ (h : d = st.delay), renderInterval cb d st = { st with savedCallback := cb } := by
    intro h
    simp only [renderInterval]
    rw [if_pos h]
  refine ⟨?_, hsame, ?_, ?_, ?_⟩
  · simp only [renderInterval]
    split
    · rfl
    · split <;> rfl
  · intro dd hne hd
    subst hd
    simp only [renderInterval]
    rw [if_neg hne]
  · intro hne hd
    subst hd
    simp only [renderInterval]
    rw [if_neg hne]
  · intro id r ht
    have h2 : renderInterval cb st.delay st = { st with savedCallback := cb } := by
      simp [renderInterval]
    rw [h2]
    simp only [fireTick]
    rw [ht]

/-- Witness for `useInterval_spec`: a hook armed at 500 ms, re-rendered with
a new callback (same delay) and then fired, and re-rendered with a new delay
of 1000 ms. -/
theorem useInterval_spec_witness :
    (some 1000 ≠ (initInterval 7 (some 500) : IntervalState Nat).delay)
  ∧ renderInterval 8 (some 1000) (initInterval 7 (some 500))
      = { initInterval 7 (some 500) with
          savedCallback := 8
          delay := some 1000
          timer := some (1, 1000)
          nextId := 2 }
  ∧ (initInterval 7 (some 500) : IntervalState Nat).timer = some (0, 500)
  ∧ fireTick (renderInterval 9 (initInterval 7 (some 500)).delay (initInterval 7 (some 500)))
      = ({ initInterval 7 (some 500) with savedCallback := 9, timer := some (0, 500) }, some 9) := by
  refine ⟨by decide, ?_, rfl, ?_⟩
  · exact (useInterval_spec (initInterval 7 (some 500)) 8 (some 1000)).2.2.1 1000 (by decide) rfl
  · exact (useInterval_spec (initInterval 7 (some 500)) 9 (some 500)).2.2.2.2 0 500 rfl

/-! ## C10: update with props -/

/-- C10: a guard-passing `update(props)` with defined (already-mapped) raw
props replaces the global settings blob by the spread of its previous value
with the raw props — raw keys winning — and forwards an `update` command
carrying only the raw props, not the merged blob. -/
theorem update_spec (cfg : Config) (now : Nat) (raw : Settings) (s : PState)
    (hb : s.isBooted = true)
    (hg : s.window.wIntercom = true ∨ cfg.shouldInitialize = true) :
    update cfg now (some raw) s
      = { s with
          window := { s.window with
            intercomSettings := some (smerge (s.window.intercomSettings.getD []) raw) },
          dispatched := s.dispatched ++ [(Cmd.updateCmd raw, true)] }
  ∧ (∀ k, slookup (smerge (s.window.intercomSettings.getD []) raw) k
        = (slookup raw k).or (slookup (s.window.intercomSettings.getD []) k)) := by
  have hguard := guard_false_of hg
  refine ⟨?_, fun k => slookup_smerge _ _ k⟩
  unfold update ensureIntercom
  simp [hguard, hb, dispatch]

/-- Witness for `update_spec`: update the booted provider with raw props
`\x7b name: Jane \x7d`. -/
theorem update_spec_witness :
    sBooted.isBooted = true
  ∧ (sBooted.window.wIntercom = true ∨ cfgInternal.shouldInitialize = true)
  ∧ update cfgInternal 5 (some [("name", "Jane")]) sBooted
      = { sBooted with
          window := { sBooted.window with
            intercomSettings := some (smerge (sBooted.window.intercomSettings.getD [])
              [("name", "Jane")]) },
          dispatched := sBooted.dispatched ++ [(Cmd.updateCmd [("name", "Jane")], true)] } :=
  ⟨rfl, Or.inr rfl,
    (update_spec cfgInternal 5 [("name", "Jane")] sBooted rfl (Or.inr rfl)).1⟩

end ReactUseIntercom
